import Mathlib

/-!
Shallow embedding of the onboarding-platform backend (tcompy1/onboarding-platform).

The embedded code lives in `src/backend/src`:
  - `models/User.js`, `models/Applications.js`  — SQL-backed stores, modelled as
    pure state-passing functions over list-based databases;
  - `controllers/authController.js`, `controllers/applicationControllers.js`;
  - `middleware/auth.js`;
  - `index.js` + `routes/applications.js` — route mounting.

External collaborators (out of scope per the spec, modelled from their
documented contracts):
  - bcrypt: `hash` / `compare` modelled by a deterministic tagging function;
  - jsonwebtoken: `sign` validates its options object against a fixed schema of
    known option names and throws on any unknown key; `verify` rejects a token
    signed with a different secret with an error named "JsonWebTokenError" and a
    token past its expiry with an error named "TokenExpiredError";
  - the PostgreSQL pool: each model method is one SQL statement, modelled as one
    pure update/lookup of the corresponding list-based store.

JavaScript truthiness on request-body string fields (absent or empty string is
falsy) is modelled by `truthy` on `Option String`.  A JavaScript exception that
escapes a controller reaches the framework's default error handler (HTTP 500);
it is modelled by the `Outcome.thrown` constructor.
-/

namespace Onboarding

/-- JS truthiness of an optional string request-body field: `undefined` and the
empty string are falsy, every other string is truthy. -/
def truthy : Option String → Bool
  | none => false
  | some s => s != ""

/-- A character matched by `[^\s@]` in the controllers' email regular
expression: not whitespace and not `@`. -/
def isLocalChar (c : Char) : Bool := !c.isWhitespace && c != '@'

/-- The domain part of the regex is `[^\s@]+\.[^\s@]+`: it must contain a dot
that has at least one character before it and at least one after it. -/
def hasInnerDot (d : List Char) : Bool := ((d.drop 1).dropLast).contains '.'

/-- The email test `/^[^\s@]+@[^\s@]+\.[^\s@]+$/` used by both `register`
(`authController.js`) and `createApplication` (`applicationControllers.js`):
a non-empty run of non-whitespace non-`@` characters, an `@`, then a domain of
non-whitespace non-`@` characters containing an inner dot. -/
def emailRegexTest (s : String) : Bool :=
  match s.toList.span isLocalChar with
  | (localPart, rest) =>
    match rest with
    | '@' :: domain =>
        !localPart.isEmpty && domain.all isLocalChar && hasInnerDot domain
    | _ => false

/-- Model of `bcrypt.hash(password, 10)` (external primitive): a deterministic
irreversible-by-convention tagging of the password. -/
def bcryptHash (password : String) : String := "$2b$10$" ++ password

/-- Model of `bcrypt.compare(plain, hash)` (external primitive): true exactly
when the hash was produced from the plaintext. -/
def bcryptCompare (password hash : String) : Bool := hash == bcryptHash password

/-- The decoded JWT payload `{userId, email, role}`. -/
structure JwtPayload where
  userId : Nat
  email : String
  role : String
deriving DecidableEq, Repr

/-- Model of a signed JWT: its payload, the secret it was signed with, and the
`expiresIn` duration recorded at signing (`none` when no expiry was set). -/
structure SignedToken where
  payload : JwtPayload
  secret : String
  expiresIn : Option String
deriving DecidableEq, Repr

/-- A verification error of the jsonwebtoken primitive, carrying its `name`. -/
structure JwtError where
  name : String
  message : String
deriving DecidableEq, Repr

/-- The option names accepted by `jwt.sign`'s options-object schema
(jsonwebtoken's `sign_options_schema`); any other key makes `sign` throw. -/
def jwtSignOptionNames : List String :=
  ["algorithm", "keyid", "expiresIn", "notBefore", "audience", "subject",
   "issuer", "jwtid", "noTimestamp", "header", "encoding", "mutatePayload",
   "allowInsecureKeySizes", "allowInvalidAsymmetricKeyTypes"]

/-- Model of `jwt.sign(payload, secret, options)` (external primitive):
jsonwebtoken validates the options object against its fixed schema and throws
on an unknown key; on success the produced token carries the payload, the
secret, and the `expiresIn` option when present. -/
def jwtSign (payload : JwtPayload) (secret : String)
    (options : List (String × String)) : Except String SignedToken :=
  match options.find? (fun kv => !(jwtSignOptionNames.contains kv.fst)) with
  | some kv => .error ("\"" ++ kv.fst ++ "\" is not allowed in \"options\"")
  | none =>
      .ok { payload := payload, secret := secret,
            expiresIn := ((options.find? (fun kv => kv.fst == "expiresIn")).map
              Prod.snd) }

/-- Model of `jwt.verify(token, secret)` (external primitive): a token signed
with a different secret fails with an error named "JsonWebTokenError"; a token
that carries an expiry and whose expiry has passed (the `expired` flag models
the clock's verdict at verification time) fails with "TokenExpiredError". -/
def jwtVerify (t : SignedToken) (secret : String) (expired : Bool) :
    Except JwtError JwtPayload :=
  if t.secret != secret then
    .error { name := "JsonWebTokenError", message := "invalid signature" }
  else if t.expiresIn.isSome && expired then
    .error { name := "TokenExpiredError", message := "jwt expired" }
  else
    .ok t.payload

/-- A row of the `users` table (`SELECT *` returns all of these columns,
including `password_hash`). -/
structure UserRow where
  id : Nat
  email : String
  password_hash : String
  role : String
  created_at : Nat
deriving DecidableEq, Repr

/-- The `users` table with its SERIAL id counter. -/
structure UsersDb where
  rows : List UserRow
  nextId : Nat
deriving DecidableEq, Repr

/-- `User.create` (`models/User.js`): hashes the password with bcrypt and
inserts one row; `role` defaults to `'customer'` only when it is undefined
(the JS default-parameter rule). Returns the new store and the inserted row. -/
def User.create (db : UsersDb) (email password : String) (role : Option String)
    (now : Nat) : UsersDb × UserRow :=
  let row : UserRow :=
    { id := db.nextId, email := email,
      password_hash := bcryptHash password,
      role := role.getD "customer", created_at := now }
  ({ rows := db.rows ++ [row], nextId := db.nextId + 1 }, row)

/-- `User.findByEmail` (`models/User.js`): `SELECT * FROM users WHERE email =
$1`, first matching row or undefined. -/
def User.findByEmail (db : UsersDb) (email : String) : Option UserRow :=
  db.rows.find? (fun r => r.email == email)

/-- `User.validatePassword` (`models/User.js`): `bcrypt.compare`. -/
def User.validatePassword (plainPassword hashedPassword : String) : Bool :=
  bcryptCompare plainPassword hashedPassword

/-- A row of the `applications` table. -/
structure ApplicationRow where
  id : Nat
  firstName : String
  lastName : String
  email : String
  productType : String
  status : String
  created_at : Nat
  updated_at : Nat
deriving DecidableEq, Repr

/-- The `applications` table with its SERIAL id counter.  Rows are kept most
recent first: `Application.create` prepends, so the stored order is descending
`created_at` under a monotone clock, mirroring the `ORDER BY created_at DESC`
of `findAll`. -/
structure ApplicationsDb where
  rows : List ApplicationRow
  nextId : Nat
deriving DecidableEq, Repr

/-- `Application.create` (`models/Applications.js`): inserts one row with
status `'submitted'`; `productType` defaults to `'checking'` only when
undefined.  Returns the new store and the inserted row. -/
def Application.create (db : ApplicationsDb)
    (firstName lastName email : String) (productType : Option String)
    (now : Nat) : ApplicationsDb × ApplicationRow :=
  let row : ApplicationRow :=
    { id := db.nextId, firstName := firstName, lastName := lastName,
      email := email, productType := productType.getD "checking",
      status := "submitted", created_at := now, updated_at := now }
  ({ rows := row :: db.rows, nextId := db.nextId + 1 }, row)

/-- `Application.findAll` (`models/Applications.js`): all rows, most recent
first. -/
def Application.findAll (db : ApplicationsDb) : List ApplicationRow := db.rows

/-- `Application.findById` (`models/Applications.js`): first row matching the
id, or undefined. -/
def Application.findById (db : ApplicationsDb) (id : Nat) :
    Option ApplicationRow :=
  db.rows.find? (fun r => r.id == id)

/-- The projection returned by `Application.updateStatus`'s `RETURNING id,
status, updated_at AS "updatedAt"` clause. -/
structure UpdatedRow where
  id : Nat
  status : String
  updatedAt : Nat
deriving DecidableEq, Repr

/-- `Application.updateStatus` (`models/Applications.js`): `UPDATE applications
SET status = $1, updated_at = CURRENT_TIMESTAMP WHERE id = $2 RETURNING id,
status, updated_at`.  Every row matching the id is updated; the returned
projection is taken from the first matching row (`result.rows[0]`), or
undefined when no row matched. -/
def Application.updateStatus (db : ApplicationsDb) (id : Nat) (status : String)
    (now : Nat) : ApplicationsDb × Option UpdatedRow :=
  ({ db with rows := db.rows.map (fun r =>
       if r.id == id then { r with status := status, updated_at := now }
       else r) },
   (db.rows.find? (fun r => r.id == id)).map
     (fun r => { id := r.id, status := status, updatedAt := now }))

/-- A JSON value as built by the controllers.  `tok` models the opaque
serialized JWT string placed under the `token` key. -/
inductive Json where
  | obj (fields : List (String × Json))
  | arr (elems : List Json)
  | str (s : String)
  | num (n : Nat)
  | tok (t : SignedToken)

/-- The keys of a JSON object (empty for non-objects). -/
def Json.objKeys : Json → List String
  | .obj fields => fields.map Prod.fst
  | _ => []

/-- Field lookup in a JSON object. -/
def Json.field (j : Json) (k : String) : Option Json :=
  match j with
  | .obj fields => (fields.find? (fun kv => kv.fst == k)).map Prod.snd
  | _ => none

/-- The `{ error: msg }` body shape used by every failure response. -/
def errJson (msg : String) : Json := .obj [("error", .str msg)]

/-- The outcome of handling a request: an HTTP response, or a thrown JS error
that reaches the framework's default error handler (HTTP 500). -/
inductive Outcome where
  | resp (status : Nat) (body : Json)
  | thrown (message : String)

/-- The HTTP status of an outcome (`none` for a thrown error). -/
def Outcome.statusCode : Outcome → Option Nat
  | .resp s _ => some s
  | .thrown _ => none

/-- The out-of-band configuration: `process.env.JWT_SECRET` and
`process.env.JWT_EXPIRES_IN`. -/
structure Env where
  jwtSecret : String
  jwtExpiresIn : String
deriving DecidableEq, Repr

/-- The request body of `POST /auth/register`. -/
structure RegisterBody where
  email : Option String
  password : Option String
  role : Option String
deriving Repr

/-- `register` (`controllers/authController.js`), exactly as written in the
source: presence check, email regex, password length, duplicate check
answered with `res.status(400)` and the message `'User already exists" '`
(including its stray quote), then `User.create`, then `jwt.sign` whose options
object is `{ eexpiresIn: process.env.JWT_EXPIRES_IN }` — a misspelled option
key, which the signing primitive rejects by throwing. -/
def register (env : Env) (db : UsersDb) (body : RegisterBody) (now : Nat) :
    UsersDb × Outcome :=
  if !(truthy body.email && truthy body.password) then
    (db, .resp 400 (errJson "Email and password are required"))
  else
    let email := body.email.getD ""
    let password := body.password.getD ""
    if !(emailRegexTest email) then
      (db, .resp 400 (errJson "Invalid email format"))
    else if password.length < 8 then
      (db, .resp 400 (errJson "Password must be at least 8 characters"))
    else
      match User.findByEmail db email with
      | some _ => (db, .resp 400 (errJson "User already exists\" "))
      | none =>
        let res := User.create db email password body.role now
        match jwtSign
            { userId := res.2.id, email := res.2.email, role := res.2.role }
            env.jwtSecret [("eexpiresIn", env.jwtExpiresIn)] with
        | .error e => (res.1, .thrown e)
        | .ok token =>
          (res.1, .resp 201 (Json.obj
            [("message", .str "User registered successfully"),
             ("token", .tok token),
             ("user", Json.obj
               [("id", .num res.2.id), ("email", .str res.2.email),
                ("role", .str res.2.role)])]))

/-- The request body of `POST /auth/login`. -/
structure LoginBody where
  email : Option String
  password : Option String
deriving Repr

/-- `login` (`controllers/authController.js`), exactly as written in the
source: presence check, `User.findByEmail`, and then — with no call to
`User.validatePassword` — a fresh token and a 200 response for any found
user. -/
def login (env : Env) (db : UsersDb) (body : LoginBody) : Outcome :=
  if !(truthy body.email && truthy body.password) then
    .resp 400 (errJson "Email and password are required")
  else
    match User.findByEmail db (body.email.getD "") with
    | none => .resp 401 (errJson "Invalid credentials")
    | some user =>
      match jwtSign { userId := user.id, email := user.email, role := user.role }
          env.jwtSecret [("expiresIn", env.jwtExpiresIn)] with
      | .error e => .thrown e
      | .ok token =>
        .resp 200 (Json.obj
          [("message", .str "Login successful"),
           ("token", .tok token),
           ("user", Json.obj
             [("id", .num user.id), ("email", .str user.email),
              ("role", .str user.role)])])

/-- The request body of `POST /applications`. -/
structure SubmitBody where
  firstName : Option String
  lastName : Option String
  email : Option String
  productType : Option String
deriving Repr

/-- `createApplication` (`controllers/applicationControllers.js`): presence
check on firstName/lastName/email, the email regex, then `Application.create`
and a 201 response with `{applicationId, status}`. -/
def createApplication (db : ApplicationsDb) (body : SubmitBody) (now : Nat) :
    ApplicationsDb × Outcome :=
  if !(truthy body.firstName && truthy body.lastName && truthy body.email) then
    (db, .resp 400 (Json.obj
      [("error", .str "Missing required fields"),
       ("required", Json.arr [.str "firstName", .str "lastName", .str "email"])]))
  else if !(emailRegexTest (body.email.getD "")) then
    (db, .resp 400 (errJson "Invalid email format"))
  else
    let res := Application.create db (body.firstName.getD "")
      (body.lastName.getD "") (body.email.getD "") body.productType now
    (res.1, .resp 201 (Json.obj
      [("applicationId", .num res.2.id), ("status", .str res.2.status)]))

/-- The JSON serialization of an application row, with exactly the columns the
model's SELECT lists return. -/
def appJson (r : ApplicationRow) : Json :=
  .obj [("id", .num r.id), ("firstName", .str r.firstName),
        ("lastName", .str r.lastName), ("email", .str r.email),
        ("productType", .str r.productType), ("status", .str r.status),
        ("createdAt", .num r.created_at)]

/-- `getAllApplications` (`controllers/applicationControllers.js`). -/
def getAllApplications (db : ApplicationsDb) : Outcome :=
  .resp 200 (Json.arr ((Application.findAll db).map appJson))

/-- `getApplicationById` (`controllers/applicationControllers.js`). -/
def getApplicationById (db : ApplicationsDb) (id : Nat) : Outcome :=
  match Application.findById db id with
  | none => .resp 404 (errJson "Application not found")
  | some r => .resp 200 (appJson r)

/-- The controller's `validStatuses` array. -/
def validStatuses : List String :=
  ["submitted", "under_review", "approved", "rejected"]

/-- `updateApplicationStatus` (`controllers/applicationControllers.js`):
presence check on `status`, membership in `validStatuses`, then
`Application.updateStatus`; 404 when no row matched, otherwise 200 with the
returned `{id, status, updatedAt}` projection. -/
def updateApplicationStatus (db : ApplicationsDb) (id : Nat)
    (status : Option String) (now : Nat) : ApplicationsDb × Outcome :=
  if !(truthy status) then
    (db, .resp 400 (errJson "Status is required"))
  else
    let s := status.getD ""
    if !(validStatuses.contains s) then
      (db, .resp 400 (Json.obj
        [("error", .str "Invalid status"),
         ("validStatuses", Json.arr (validStatuses.map Json.str))]))
    else
      match Application.updateStatus db id s now with
      | (db2, none) => (db2, .resp 404 (errJson "Application not found"))
      | (db2, some u) => (db2, .resp 200 (Json.obj
          [("id", .num u.id), ("status", .str u.status),
           ("updatedAt", .num u.updatedAt)]))

/-- The value of a request's authorization header: either a string that does
not start with `"Bearer "`, or `"Bearer "` followed by a serialized token. -/
inductive AuthHeaderVal where
  | notBearer (s : String)
  | bearer (t : SignedToken)
deriving DecidableEq, Repr

/-- The outcome of a middleware: an early response, handing the request on with
the decoded user attached, or a thrown JS error (HTTP 500 via the framework's
default handler). -/
inductive MwOutcome where
  | respond (status : Nat) (body : Json)
  | proceed (user : JwtPayload)
  | thrown (message : String)

/-- `authenticate` (`middleware/auth.js`), exactly as written in the source:
missing or non-`Bearer` header gets 401 `'No token provided'`; otherwise the
token is verified and a verification error is matched against
`'JsonWebtTokenError'` — the source misspells the primitive's actual error
name `'JsonWebTokenError'` — then `'TokenExpiredError'`, falling through to
the generic 401 `'Authentication failed'`. -/
def authenticate (env : Env) (header : Option AuthHeaderVal) (expired : Bool) :
    MwOutcome :=
  match header with
  | none => .respond 401 (errJson "No token provided")
  | some (.notBearer _) => .respond 401 (errJson "No token provided")
  | some (.bearer t) =>
    match jwtVerify t env.jwtSecret expired with
    | .ok payload => .proceed payload
    | .error e =>
      if e.name == "JsonWebtTokenError" then
        .respond 401 (errJson "Invalid token")
      else if e.name == "TokenExpiredError" then
        .respond 401 (errJson "Token expired")
      else
        .respond 401 (errJson "Authentication failed")

/-- `authorize(...roles)` (`middleware/auth.js`), exactly as written in the
source: with no attached user it responds 401; with an attached user it
evaluates `reqq.user.role` — `reqq` is an undeclared identifier, so, before
`roles.includes` can run, evaluation throws `ReferenceError: reqq is not
defined` regardless of the attached role. -/
def authorize (roles : List String) (user : Option JwtPayload) : MwOutcome :=
  match user with
  | none => .respond 401 (errJson "Not authenticated")
  | some _ => .thrown "reqq is not defined"

/-- An inbound HTTP request's credential-bearing part: its authorization
header, if any. -/
structure Request where
  authorization : Option AuthHeaderVal
deriving DecidableEq, Repr

/-- `GET /admin/applications` as mounted by `index.js` via
`routes/applications.js`: the router attaches no middleware (the source
comments the admin routes with "will be protected later"), so the controller
runs directly and the request's authorization header is never consulted. -/
def adminGetAllApplications (req : Request) (db : ApplicationsDb) : Outcome :=
  getAllApplications db

/-- `GET /admin/applications/:id` as mounted by `index.js`: no middleware, the
controller runs directly. -/
def adminGetApplicationById (req : Request) (db : ApplicationsDb) (id : Nat) :
    Outcome :=
  getApplicationById db id

/-- `PUT /admin/applications/:id/status` as mounted by `index.js`: no
middleware, the controller runs directly. -/
def adminUpdateApplicationStatus (req : Request) (db : ApplicationsDb)
    (id : Nat) (status : Option String) (now : Nat) : ApplicationsDb × Outcome :=
  updateApplicationStatus db id status now

/-! Concrete fixtures used by the claim theorems. -/

/-- A test configuration for the out-of-band environment. -/
def envTest : Env := { jwtSecret := "test-secret", jwtExpiresIn := "24h" }

/-- A stored user whose hash was produced from the password "password123". -/
def aliceRow : UserRow :=
  { id := 1, email := "a@b.com", password_hash := bcryptHash "password123",
    role := "customer", created_at := 0 }

/-- A credential store holding exactly `aliceRow`. -/
def dbAlice : UsersDb := { rows := [aliceRow], nextId := 2 }

/-- The empty credential store. -/
def emptyUsers : UsersDb := { rows := [], nextId := 1 }

/-- A well-formed registration body for `a@b.com` with an 11-character
password. -/
def regBodyAlice : RegisterBody :=
  { email := some "a@b.com", password := some "password123", role := none }

/-- The credential store state left behind by a first `register` call for
`a@b.com` on the empty store. -/
def dbAfterFirstRegister : UsersDb :=
  (register envTest emptyUsers regBodyAlice 0).1

/-- A stored application row. -/
def appRow1 : ApplicationRow :=
  { id := 1, firstName := "John", lastName := "Doe",
    email := "john@example.com", productType := "checking",
    status := "submitted", created_at := 10, updated_at := 10 }

/-- An application store holding exactly `appRow1`. -/
def appsDb1 : ApplicationsDb := { rows := [appRow1], nextId := 2 }

/-- A token signed with a secret different from `envTest.jwtSecret`. -/
def tokenWrongSecret : SignedToken :=
  { payload := { userId := 1, email := "a@b.com", role := "customer" },
    secret := "other-secret", expiresIn := some "24h" }

/-- A correctly signed token whose expiry has passed. -/
def tokenExpired : SignedToken :=
  { payload := { userId := 1, email := "a@b.com", role := "customer" },
    secret := "test-secret", expiresIn := some "24h" }

/-- Claim C1 (code bug): for the registered user `a@b.com` whose stored hash
was produced from "password123", `login` with the non-verifying password
"wrongpass" nevertheless succeeds with HTTP 200 — the source's `login` never
calls `User.validatePassword` — whereas a nonexistent email gets 401; the
claim requires the wrong-password case to fail with the same Unauthorized
failure as the nonexistent-email case. -/
theorem c1_login_succeeds_without_password_check :
    User.validatePassword "wrongpass" aliceRow.password_hash = false ∧
    (login envTest dbAlice
      { email := some "a@b.com", password := some "wrongpass" }).statusCode =
      some 200 ∧
    (login envTest dbAlice
      { email := some "nobody@b.com", password := some "wrongpass" }).statusCode =
      some 401 := by
  exact ⟨rfl, rfl, rfl⟩

/-- Claim C2 counterexample: a request to `GET /admin/applications` carrying
no bearer token is not rejected with 401; the controller runs and returns 200
together with the stored application data. -/
theorem c2_tokenless_admin_request_served :
    adminGetAllApplications { authorization := none } appsDb1 =
      .resp 200 (Json.arr [appJson appRow1]) ∧
    (adminGetAllApplications { authorization := none } appsDb1).statusCode ≠
      some 401 := by
  exact ⟨rfl, by decide⟩

/-- Claim C2 as amended: the admin application routes are mounted with no
authentication middleware, so each handler's outcome is independent of the
request's authorization header; in particular a tokenless list request is
answered 200 with the data rather than 401. -/
theorem c2_admin_routes_ignore_credentials (req req2 : Request)
    (db : ApplicationsDb) (id : Nat) (status : Option String) (now : Nat) :
    adminGetAllApplications req db = adminGetAllApplications req2 db ∧
    adminGetApplicationById req db id = adminGetApplicationById req2 db id ∧
    adminUpdateApplicationStatus req db id status now =
      adminUpdateApplicationStatus req2 db id status now ∧
    (adminGetAllApplications req db).statusCode = some 200 := by
  exact ⟨rfl, rfl, rfl, rfl⟩

/-- Claim C3 (code bug): a fresh, fully valid `register` call persists the
user row and then throws from the token-signing call (its options object
carries the misspelled key `eexpiresIn`), so the operation fails — reaching
the default error handler, HTTP 500 — while the user record has been created:
a partial success. -/
theorem c3_register_persists_user_then_fails :
    (register envTest emptyUsers regBodyAlice 0).2 =
      .thrown "\"eexpiresIn\" is not allowed in \"options\"" ∧
    (register envTest emptyUsers regBodyAlice 0).1.rows =
      [{ id := 1, email := "a@b.com",
         password_hash := bcryptHash "password123",
         role := "customer", created_at := 0 }] := by
  exact ⟨rfl, rfl⟩

/-- Claim C4 (code bug): with a well-formed fresh email and a password of
length at least 8, `register` does not return 201 with a token carrying a
fixed expiry: the sign options misspell `expiresIn` as `eexpiresIn`, so the
signing primitive throws and the call ends in the default error handler; the
short-password half of the claim does hold (400 for 7 characters). -/
theorem c4_register_never_returns_token :
    emailRegexTest "a@b.com" = true ∧
    ¬ "password123".length < 8 ∧
    (register envTest emptyUsers regBodyAlice 0).2 =
      .thrown "\"eexpiresIn\" is not allowed in \"options\"" ∧
    ((register envTest emptyUsers regBodyAlice 0).2).statusCode = none ∧
    (register envTest emptyUsers
      { email := some "a@b.com", password := some "short12", role := none }
      0).2 = .resp 400 (errJson "Password must be at least 8 characters") := by
  refine ⟨rfl, by decide, rfl, rfl, rfl⟩

/-- Claim C5 (code bug): re-registering an existing email leaves the user
count unchanged, as claimed, but the failure is `res.status(400)` with the
message `'User already exists" '` — not the claimed Conflict / HTTP 409. -/
theorem c5_duplicate_register_responds_400_not_409 :
    dbAfterFirstRegister.rows.length = 1 ∧
    (register envTest dbAfterFirstRegister regBodyAlice 1).1 =
      dbAfterFirstRegister ∧
    (register envTest dbAfterFirstRegister regBodyAlice 1).2 =
      .resp 400 (errJson "User already exists\" ") ∧
    ((register envTest dbAfterFirstRegister regBodyAlice 1).2).statusCode ≠
      some 409 := by
  refine ⟨rfl, rfl, rfl, by decide⟩

/-- Claim C6 (code bug): for a request with an authenticated user attached,
`authorize(["admin"])` neither responds 403 for a disallowed role nor lets an
allowed role proceed: evaluating the undeclared identifier `reqq` throws a
ReferenceError in both cases. -/
theorem c6_authorize_throws_reference_error :
    authorize ["admin"]
      (some { userId := 1, email := "a@b.com", role := "customer" }) =
      .thrown "reqq is not defined" ∧
    authorize ["admin"]
      (some { userId := 2, email := "root@b.com", role := "admin" }) =
      .thrown "reqq is not defined" := by
  exact ⟨rfl, rfl⟩

/-- Claim C7 (code bug): a token with an invalid signature is rejected by
verification with an error named `JsonWebTokenError`, but `authenticate`
compares that name against the misspelling `JsonWebtTokenError`, so the
caller receives the generic 401 `'Authentication failed'` instead of the
distinguished `'Invalid token'`; only the expired case is distinguished, and
a missing header does fail with the Unauthenticated message. -/
theorem c7_invalid_signature_gets_generic_message :
    jwtVerify tokenWrongSecret envTest.jwtSecret false =
      .error { name := "JsonWebTokenError", message := "invalid signature" } ∧
    authenticate envTest (some (.bearer tokenWrongSecret)) false =
      .respond 401 (errJson "Authentication failed") ∧
    authenticate envTest (some (.bearer tokenExpired)) true =
      .respond 401 (errJson "Token expired") ∧
    authenticate envTest none false =
      .respond 401 (errJson "No token provided") := by
  exact ⟨rfl, rfl, rfl, rfl⟩

/-- Every outcome of `register` is either a 400 response or a thrown error:
the success branch is unreachable because the sign options carry the unknown
key `eexpiresIn`, which makes the signing primitive throw. -/
theorem register_no_success (env : Env) (db : UsersDb) (body : RegisterBody)
    (now : Nat) :
    ((register env db body now).2).statusCode = some 400 ∨
    ((register env db body now).2).statusCode = none := by
  rw [register]
  split
  · simp [Outcome.statusCode]
  · dsimp only
    split
    · simp [Outcome.statusCode]
    · split
      · simp [Outcome.statusCode]
      · split
        · simp [Outcome.statusCode]
        · split
          · simp [Outcome.statusCode]
          · next heq => simp [jwtSign, jwtSignOptionNames] at heq

/-- Claim C8: `updateStatus` fails with a 400 validation error, leaving the
store unchanged, when the status is absent/empty or not one of the four valid
values; fails with 404 when no stored row has the given id, also leaving the
store unchanged; and otherwise answers 200 with the matched row's id, the new
status and the new `updatedAt`, having stored the updated row. -/
theorem c8_updateStatus_correct (db : ApplicationsDb) (id : Nat)
    (status : Option String) (now : Nat) :
    ((truthy status && validStatuses.contains (status.getD "")) = false →
      (updateApplicationStatus db id status now).1 = db ∧
      ((updateApplicationStatus db id status now).2).statusCode = some 400) ∧
    ((truthy status && validStatuses.contains (status.getD "")) = true →
      (∀ r ∈ db.rows, r.id ≠ id) →
      (updateApplicationStatus db id status now).1 = db ∧
      (updateApplicationStatus db id status now).2 =
        Outcome.resp 404 (errJson "Application not found")) ∧
    (∀ r, (truthy status && validStatuses.contains (status.getD "")) = true →
      db.rows.find? (fun x => x.id == id) = some r →
      r ∈ db.rows ∧ r.id = id ∧
      (updateApplicationStatus db id status now).2 =
        Outcome.resp 200 (Json.obj
          [("id", Json.num r.id), ("status", Json.str (status.getD "")),
           ("updatedAt", Json.num now)]) ∧
      { r with status := status.getD "", updated_at := now } ∈
        (updateApplicationStatus db id status now).1.rows) := by
  refine ⟨?_, ?_, ?_⟩
  · intro h
    cases h1 : truthy status with
    | false => simp [updateApplicationStatus, h1, Outcome.statusCode]
    | true =>
      have h2 : validStatuses.contains (status.getD "") = false := by
        rw [h1] at h; simpa using h
      have hmem : (status.getD "") ∉ validStatuses := by simpa using h2
      simp [updateApplicationStatus, h1, h2, hmem, Outcome.statusCode]
  · intro h hno
    simp only [Bool.and_eq_true] at h
    obtain ⟨h1, h2⟩ := h
    have hmem2 : (status.getD "") ∈ validStatuses := by simpa using h2
    have hfind : db.rows.find? (fun x => x.id == id) = none :=
      List.find?_eq_none.mpr (fun x hx => by simpa using hno x hx)
    have hmap : db.rows.map (fun r =>
        if r.id = id then { r with status := status.getD "", updated_at := now }
        else r) = db.rows := by
      have hcg := List.map_congr_left (l := db.rows)
        (f := fun r => if r.id = id then
          { r with status := status.getD "", updated_at := now } else r)
        (g := fun a => a) (fun a ha => by
          have hne : ¬ a.id = id := hno a ha
          simp [hne])
      rw [hcg, List.map_id']
    simp [updateApplicationStatus, h1, h2, hmem2, Application.updateStatus,
      hfind, hmap]
  · intro r h hfind
    simp only [Bool.and_eq_true] at h
    obtain ⟨h1, h2⟩ := h
    have hmem2 : (status.getD "") ∈ validStatuses := by simpa using h2
    have hp : (r.id == id) = true :=
      List.find?_some (p := fun x : ApplicationRow => x.id == id) hfind
    have hmem : r ∈ db.rows := List.mem_of_find?_eq_some hfind
    refine ⟨hmem, by simpa using hp, ?_, ?_⟩
    · simp [updateApplicationStatus, h1, h2, hmem2, Application.updateStatus,
        hfind]
    · have hm := List.mem_map_of_mem (f := fun x =>
        if x.id == id then { x with status := status.getD "", updated_at := now }
        else x) hmem
      simp only [hp, if_true] at hm
      simp [updateApplicationStatus, h1, h2, hmem2, Application.updateStatus,
        hfind]
      simpa using hm

/-- Witness for C8: on a store holding exactly the row with id 1, an invalid
status is refused with 400 and no change, id 99 is answered 404 with no
change, and a valid update of id 1 to "approved" answers 200 with the
projection and stores the updated row. -/
theorem c8_witness :
    ((updateApplicationStatus appsDb1 1 (some "weird") 5).1 = appsDb1 ∧
      ((updateApplicationStatus appsDb1 1 (some "weird") 5).2).statusCode =
        some 400) ∧
    ((updateApplicationStatus appsDb1 99 (some "approved") 5).1 = appsDb1 ∧
      (updateApplicationStatus appsDb1 99 (some "approved") 5).2 =
        Outcome.resp 404 (errJson "Application not found")) ∧
    ((updateApplicationStatus appsDb1 1 (some "approved") 5).2 =
      Outcome.resp 200 (Json.obj
        [("id", Json.num appRow1.id), ("status", Json.str "approved"),
         ("updatedAt", Json.num 5)]) ∧
      { appRow1 with status := "approved", updated_at := 5 } ∈
        (updateApplicationStatus appsDb1 1 (some "approved") 5).1.rows) := by
  refine ⟨(c8_updateStatus_correct appsDb1 1 (some "weird") 5).1 (by decide),
    (c8_updateStatus_correct appsDb1 99 (some "approved") 5).2.1 (by decide)
      (by decide), ?_⟩
  have h3 := (c8_updateStatus_correct appsDb1 1 (some "approved") 5).2.2
    appRow1 (by decide) (by decide)
  exact ⟨h3.2.2.1, h3.2.2.2⟩

/-- Claim C9: with non-empty firstName, lastName and email and an email
matching the regex, `submit` answers 201 with the fresh SERIAL id and status
"submitted" and stores the new row; a missing/empty required field or a
non-matching email is refused with 400 and no record is created. -/
theorem c9_submit_correct (db : ApplicationsDb) (body : SubmitBody)
    (now : Nat) :
    ((truthy body.firstName && truthy body.lastName && truthy body.email) =
        true →
      emailRegexTest (body.email.getD "") = true →
      (createApplication db body now).2 =
        Outcome.resp 201 (Json.obj
          [("applicationId", Json.num db.nextId),
           ("status", Json.str "submitted")]) ∧
      (createApplication db body now).1.rows =
        { id := db.nextId, firstName := body.firstName.getD "",
          lastName := body.lastName.getD "", email := body.email.getD "",
          productType := body.productType.getD "checking",
          status := "submitted", created_at := now, updated_at := now } ::
          db.rows ∧
      ((∀ r ∈ db.rows, r.id < db.nextId) →
        ∀ r ∈ db.rows, r.id ≠ db.nextId)) ∧
    ((truthy body.firstName && truthy body.lastName && truthy body.email) =
        false →
      (createApplication db body now).1 = db ∧
      (createApplication db body now).2 = Outcome.resp 400 (Json.obj
        [("error", Json.str "Missing required fields"),
         ("required", Json.arr
           [Json.str "firstName", Json.str "lastName", Json.str "email"])])) ∧
    ((truthy body.firstName && truthy body.lastName && truthy body.email) =
        true →
      emailRegexTest (body.email.getD "") = false →
      (createApplication db body now).1 = db ∧
      (createApplication db body now).2 =
        Outcome.resp 400 (errJson "Invalid email format")) := by
  refine ⟨?_, ?_, ?_⟩
  · intro h1 h2
    refine ⟨?_, ?_, fun hlt r hr => Nat.ne_of_lt (hlt r hr)⟩
    · simp [createApplication, h1, h2, Application.create]
    · simp [createApplication, h1, h2, Application.create]
  · intro h1
    constructor <;> simp [createApplication, h1]
  · intro h1 h2
    constructor <;> simp [createApplication, h1, h2]

/-- Witness for C9: a concrete valid submission on the empty store is
answered 201 with id 1 and stored; a submission missing lastName and one with
a malformed email are refused with 400 and the store stays empty. -/
theorem c9_witness :
    ((createApplication { rows := [], nextId := 1 }
        { firstName := some "John", lastName := some "Doe",
          email := some "john@example.com", productType := none } 3).2 =
      Outcome.resp 201 (Json.obj
        [("applicationId", Json.num 1), ("status", Json.str "submitted")]) ∧
      (createApplication { rows := [], nextId := 1 }
        { firstName := some "John", lastName := some "Doe",
          email := some "john@example.com", productType := none } 3).1.rows =
        [{ id := 1, firstName := "John", lastName := "Doe",
           email := "john@example.com", productType := "checking",
           status := "submitted", created_at := 3, updated_at := 3 }]) ∧
    ((createApplication { rows := [], nextId := 1 }
        { firstName := some "John", lastName := none,
          email := some "john@example.com", productType := none } 3).1 =
      { rows := [], nextId := 1 }) ∧
    ((createApplication { rows := [], nextId := 1 }
        { firstName := some "John", lastName := some "Doe",
          email := some "john@example", productType := none } 3).2 =
      Outcome.resp 400 (errJson "Invalid email format")) := by
  have h1 := (c9_submit_correct { rows := [], nextId := 1 }
    { firstName := some "John", lastName := some "Doe",
      email := some "john@example.com", productType := none } 3).1
    (by decide) (by decide)
  have h2 := (c9_submit_correct { rows := [], nextId := 1 }
    { firstName := some "John", lastName := none,
      email := some "john@example.com", productType := none } 3).2.1
    (by decide)
  have h3 := (c9_submit_correct { rows := [], nextId := 1 }
    { firstName := some "John", lastName := some "Doe",
      email := some "john@example", productType := none } 3).2.2
    (by decide) (by decide)
  exact ⟨⟨h1.1, h1.2.1⟩, h2.1, h3.2⟩

/-- Claim C10: every success response of `login` has body keys
`message, token, user` with the user object holding exactly
`id, email, role` — the stored `password_hash` fetched by `findByEmail` is
never serialized; `register` has no success response at all (its signing call
throws), so its success responses vacuously satisfy the same shape. -/
theorem c10_success_responses_expose_only_public_user_fields (env : Env)
    (db : UsersDb) :
    (∀ body s b, login env db body = Outcome.resp s b → s < 400 →
      Json.objKeys b = ["message", "token", "user"] ∧
      (Json.field b "user").map Json.objKeys = some ["id", "email", "role"]) ∧
    (∀ body now s b, (register env db body now).2 = Outcome.resp s b →
      200 ≤ s → s < 300 →
      (Json.field b "user").map Json.objKeys = some ["id", "email", "role"]) := by
  constructor
  · intro body s b hres hs
    rw [login] at hres
    split at hres
    · cases hres; exact absurd hs (by norm_num)
    · split at hres
      · cases hres; exact absurd hs (by norm_num)
      · split at hres
        · exact Outcome.noConfusion hres
        · cases hres
          exact ⟨rfl, rfl⟩
  · intro body now s b hres h2 h3
    rcases register_no_success env db body now with h | h <;>
      rw [hres] at h <;> simp [Outcome.statusCode] at h
    subst h
    exact absurd h3 (by norm_num)

/-- Witness for C10: a concrete successful login for the stored user
`a@b.com` produces exactly the public body shape. -/
theorem c10_witness :
    Json.objKeys (Json.obj
      [("message", Json.str "Login successful"),
       ("token", Json.tok
         { payload := { userId := 1, email := "a@b.com", role := "customer" },
           secret := "test-secret", expiresIn := some "24h" }),
       ("user", Json.obj
         [("id", Json.num 1), ("email", Json.str "a@b.com"),
          ("role", Json.str "customer")])]) = ["message", "token", "user"] ∧
    (Json.field (Json.obj
      [("message", Json.str "Login successful"),
       ("token", Json.tok
         { payload := { userId := 1, email := "a@b.com", role := "customer" },
           secret := "test-secret", expiresIn := some "24h" }),
       ("user", Json.obj
         [("id", Json.num 1), ("email", Json.str "a@b.com"),
          ("role", Json.str "customer")])]) "user").map Json.objKeys =
      some ["id", "email", "role"] := by
  exact (c10_success_responses_expose_only_public_user_fields envTest
    dbAlice).1 { email := some "a@b.com", password := some "password123" }
    200 _ rfl (by norm_num)

end Onboarding
